import Mathlib

/-!
Shallow embedding of `src/profile.rs` from the bluetui repository.

The file models the audio-profile discovery and switching utility: the
data model (`AudioProfile`, `AudioDevice`, `AudioDeviceId`), the PipeWire
probe (`get_pipewire_device` over parsed `pw-dump` entries), the
PulseAudio probe (`get_pulseaudio_device` over parsed `pactl` cards), the
two-backend fallback (`get_audio_device`), and the profile switchers.
External process invocations are modelled by an explicit outcome value
(`CmdResult` for probes, `ProcOutcome` for switches): the Rust code's
behaviour is a pure function of the parsed output of those commands.
-/

/-- Embeds Rust `s.replace(":", "_")`: the pattern and the replacement are
single characters, so the replacement is character-wise. -/
def replaceColon (s : String) : String :=
  ⟨s.data.map (fun c => if c = ':' then '_' else c)⟩

/-- Uppercase hexadecimal digit, as produced by `bluer::Address`'s Display
(`{:02X}` per octet). -/
def hexChar (n : Nat) : Char :=
  if n < 10 then Char.ofNat (48 + n) else Char.ofNat (55 + n)

/-- Two uppercase hex characters of one octet. -/
def octetChars (b : Fin 256) : List Char :=
  [hexChar (b.val / 16), hexChar (b.val % 16)]

/-- A 6-octet Bluetooth address (Rust `bluer::Address`, a `[u8; 6]`). -/
structure BtAddress where
  b0 : Fin 256
  b1 : Fin 256
  b2 : Fin 256
  b3 : Fin 256
  b4 : Fin 256
  b5 : Fin 256
deriving DecidableEq

/-- Character list of the colon-separated Display form. -/
def addrColonChars (a : BtAddress) : List Char :=
  octetChars a.b0 ++ ':' :: (octetChars a.b1 ++ ':' :: (octetChars a.b2 ++
    ':' :: (octetChars a.b3 ++ ':' :: (octetChars a.b4 ++ ':' :: octetChars a.b5))))

/-- Character list of the underscore-separated form. -/
def addrUnderscoreChars (a : BtAddress) : List Char :=
  octetChars a.b0 ++ '_' :: (octetChars a.b1 ++ '_' :: (octetChars a.b2 ++
    '_' :: (octetChars a.b3 ++ '_' :: (octetChars a.b4 ++ '_' :: octetChars a.b5))))

/-- Colon-separated Display form of an address, `AA:BB:CC:DD:EE:FF`
(Rust `addr.to_string()`). -/
def addrToString (a : BtAddress) : String :=
  ⟨addrColonChars a⟩

/-- Underscore-separated form of the same address, `AA_BB_CC_DD_EE_FF`
(the convention used by both backends' JSON properties and names). -/
def addrUnderscoreString (a : BtAddress) : String :=
  ⟨addrUnderscoreChars a⟩

/-- Embeds `address_to_bluez_format` (profile.rs:91-93). -/
def address_to_bluez_format (a : BtAddress) : String :=
  replaceColon (addrToString a)

/-- Embeds `AudioProfile` (profile.rs:5-11). -/
structure AudioProfile where
  index : Nat
  name : String
  description : String
  available : Bool
deriving DecidableEq

/-- Embeds `AudioDeviceId` (profile.rs:21-27). -/
inductive AudioDeviceId where
  | Pipewire (id : Nat)
  | Pulseaudio (card : String)
deriving DecidableEq

/-- Embeds `AudioDevice` (profile.rs:13-18). -/
structure AudioDevice where
  id : AudioDeviceId
  profiles : List AudioProfile
  active_profile_index : Option Nat
deriving DecidableEq

/-- Outcome of running an external dump/list command and parsing its
stdout: the command may fail to launch, exit non-zero, emit malformed
JSON, or yield parsed values. -/
inductive CmdResult (α : Type) where
  | launchFail
  | exitNonzero
  | badParse
  | parsed (val : α)

/-- Embeds `PwEnumProfile` (profile.rs:75-84): all of name, description
and available are optional JSON fields. -/
structure PwEnumProfile where
  index : Nat
  name : Option String
  description : Option String
  available : Option String
deriving DecidableEq

/-- Embeds `PwActiveProfile` (profile.rs:86-89). -/
structure PwActiveProfile where
  index : Nat
deriving DecidableEq

/-- Embeds `PwParams` (profile.rs:67-73). -/
structure PwParams where
  enum_profile : List PwEnumProfile
  profile : List PwActiveProfile
deriving DecidableEq

/-- Embeds `PwProps` (profile.rs:61-65). -/
structure PwProps where
  bluez5_address : Option String
deriving DecidableEq

/-- Embeds `PwInfo` (profile.rs:53-59). -/
structure PwInfo where
  props : Option PwProps
  params : Option PwParams
deriving DecidableEq

/-- Embeds `PwDumpEntry` (profile.rs:46-51). -/
structure PwDumpEntry where
  id : Nat
  info : Option PwInfo
deriving DecidableEq

/-- Embeds the per-entry profile construction of `get_pipewire_device`
(profile.rs:124-129): absent name/description become empty strings and
availability is the literal string "yes". -/
def pwMkProfile (p : PwEnumProfile) : AudioProfile :=
  { index := p.index
    name := p.name.getD ""
    description := p.description.getD ""
    available := p.available == some "yes" }

/-- Embeds the profile-list construction of `get_pipewire_device`
(profile.rs:120-131): drop entries named "off", map, keep available. -/
def pwProfilesOf (params : PwParams) : List AudioProfile :=
  ((params.enum_profile.filter (fun p => !(p.name == some "off"))).map
    pwMkProfile).filter (fun p => p.available)

/-- Embeds the entry-scanning loop of `get_pipewire_device`
(profile.rs:104-142): first entry with a matching bluez address and a
non-empty EnumProfile list yields the device. -/
def pwFindDevice : List PwDumpEntry → String → Option AudioDevice
  | [], _ => none
  | entry :: rest, q =>
    match entry.info with
    | none => pwFindDevice rest q
    | some info =>
      match info.props with
      | none => pwFindDevice rest q
      | some props =>
        match props.bluez5_address with
        | none => pwFindDevice rest q
        | some bluez_addr =>
          if replaceColon bluez_addr ≠ q then pwFindDevice rest q
          else
            match info.params with
            | none => pwFindDevice rest q
            | some params =>
              if params.enum_profile.isEmpty then pwFindDevice rest q
              else
                some { id := .Pipewire entry.id
                       profiles := pwProfilesOf params
                       active_profile_index :=
                         params.profile.head?.map PwActiveProfile.index }

/-- Embeds `get_pipewire_device` (profile.rs:95-143): launch failure,
non-zero exit and JSON decode failure all yield `none`; otherwise the
parsed entries are scanned against the normalized address. -/
def get_pipewire_device (r : CmdResult (List PwDumpEntry)) (addr : BtAddress) :
    Option AudioDevice :=
  match r with
  | .parsed entries => pwFindDevice entries (address_to_bluez_format addr)
  | _ => none

/-- Embeds `PaProfile` (profile.rs:248-256). -/
structure PaProfile where
  name : String
  description : String
  available : Bool
deriving DecidableEq

/-- Embeds `PaCard` (profile.rs:236-246); the JSON properties object is
modelled as an association list with first-match lookup. -/
structure PaCard where
  name : String
  properties : List (String × String)
  profiles : List PaProfile
  active_profile : Option String
deriving DecidableEq

/-- Embeds the property lookup of `get_pulseaudio_device`
(profile.rs:179-182): preferred key "api.bluez5.address", falling back to
"device.string". -/
def paPropAddr (card : PaCard) : Option String :=
  match card.properties.lookup "api.bluez5.address" with
  | some v => some v
  | none => card.properties.lookup "device.string"

/-- Substring search on character lists: does `pat` start `s`? -/
def listStartsWith : List Char → List Char → Bool
  | _, [] => true
  | [], _ :: _ => false
  | c :: cs, p :: ps => c = p && listStartsWith cs ps

/-- Embeds Rust `str::contains` for a string pattern: `pat` occurs as a
contiguous substring of `s`. -/
def containsSub : List Char → List Char → Bool
  | [], pat => pat.isEmpty
  | s@(_ :: rest), pat => listStartsWith s pat || containsSub rest pat

/-- Embeds the card-matching condition of `get_pulseaudio_device`
(profile.rs:177-191): property-derived normalized address equals the
query, or the card name contains the query as a substring. -/
def paCardMatches (card : PaCard) (q : String) : Bool :=
  let card_addr := (paPropAddr card).map replaceColon
  let name_matches := containsSub card.name.data q.data
  let addr_matches := card_addr == some q
  name_matches || addr_matches

/-- Embeds the profile-building loop of `get_pulseaudio_device`
(profile.rs:196-210): `idx` counts every entry of the original list,
"off" entries are skipped, only available entries are pushed. -/
def paProfilesAux : Nat → List PaProfile → List AudioProfile
  | _, [] => []
  | idx, p :: rest =>
    if p.name = "off" then paProfilesAux (idx + 1) rest
    else if p.available then
      { index := idx, name := p.name, description := p.description,
        available := p.available } :: paProfilesAux (idx + 1) rest
    else paProfilesAux (idx + 1) rest

/-- Profile list of a PulseAudio card (profile.rs:193-210). -/
def paProfilesOf (card : PaCard) : List AudioProfile :=
  paProfilesAux 0 card.profiles

/-- Embeds the active-profile search loop of `get_pulseaudio_device`
(profile.rs:214-219): first profile in the filtered list whose name
equals the active name, by position in that list. -/
def paResolveActive (activeName : String) : Nat → List AudioProfile → Option Nat
  | _, [] => none
  | idx, p :: rest =>
    if p.name = activeName then some idx
    else paResolveActive activeName (idx + 1) rest

/-- Active-profile index of a PulseAudio card (profile.rs:212-220). -/
def paActiveIndex (card : PaCard) : Option Nat :=
  match card.active_profile with
  | none => none
  | some activeName => paResolveActive activeName 0 (paProfilesOf card)

/-- Embeds the card-scanning loop of `get_pulseaudio_device`
(profile.rs:177-233): first matching card with a non-empty filtered
profile list yields the device. -/
def paFindDevice : List PaCard → String → Option AudioDevice
  | [], _ => none
  | card :: rest, q =>
    if paCardMatches card q then
      if (paProfilesOf card).isEmpty then paFindDevice rest q
      else
        some { id := .Pulseaudio card.name
               profiles := paProfilesOf card
               active_profile_index := paActiveIndex card }
    else paFindDevice rest q

/-- Embeds `get_pulseaudio_device` (profile.rs:165-234). -/
def get_pulseaudio_device (r : CmdResult (List PaCard)) (addr : BtAddress) :
    Option AudioDevice :=
  match r with
  | .parsed cards => paFindDevice cards (address_to_bluez_format addr)
  | _ => none

/-- Embeds `get_audio_device` (profile.rs:32-34): PipeWire first, then
PulseAudio. -/
def get_audio_device (pw : CmdResult (List PwDumpEntry))
    (pa : CmdResult (List PaCard)) (addr : BtAddress) : Option AudioDevice :=
  match get_pipewire_device pw addr with
  | some d => some d
  | none => get_pulseaudio_device pa addr

/-- Outcome of spawning a switch command: launch failure with a reason,
or an exit with a status code and captured standard-error text. A status
is successful exactly when the code is zero. -/
inductive ProcOutcome where
  | launchFail (reason : String)
  | exited (code : Nat) (stderr : String)

/-- Embeds `switch_pipewire_profile` (profile.rs:145-161), as a function
of the `wpctl` process outcome. -/
def switch_pipewire_profile (device_id : Nat) (profile_index : Nat)
    (proc : ProcOutcome) : Except String String :=
  match proc with
  | .launchFail e => .error ("Failed to run wpctl: " ++ e)
  | .exited code stderr =>
    if code = 0 then .ok "Profile switched"
    else .error ("wpctl failed: " ++ stderr)

/-- Embeds `switch_pulseaudio_profile` (profile.rs:258-270), as a
function of the `pactl` process outcome. -/
def switch_pulseaudio_profile (card_name : String) (profile_name : String)
    (proc : ProcOutcome) : Except String String :=
  match proc with
  | .launchFail e => .error ("Failed to run pactl: " ++ e)
  | .exited code stderr =>
    if code = 0 then .ok "Profile switched"
    else .error ("pactl failed: " ++ stderr)

/-- Embeds `switch_profile` (profile.rs:37-42): dispatch on the backend
that owns the device. -/
def switch_profile (device : AudioDeviceId) (profile_index : Nat)
    (profile_name : String) (proc : ProcOutcome) : Except String String :=
  match device with
  | .Pipewire id => switch_pipewire_profile id profile_index proc
  | .Pulseaudio card => switch_pulseaudio_profile card profile_name proc

/-! ### Concrete inputs used by counterexamples and witnesses -/

/-- The address AA:BB:CC:DD:EE:FF. -/
def addrX : BtAddress := ⟨0xAA, 0xBB, 0xCC, 0xDD, 0xEE, 0xFF⟩

/-- A pw-dump entry matching AA:BB:CC:DD:EE:FF whose only EnumProfile
entry is named "off": the filter removes it, leaving no profiles. -/
def c1Entry : PwDumpEntry :=
  { id := 7
    info := some
      { props := some { bluez5_address := some "AA:BB:CC:DD:EE:FF" }
        params := some
          { enum_profile := [{ index := 0, name := some "off", description := none,
                               available := some "yes" }]
            profile := [] } } }

/-- A card whose single profile is available and not "off". -/
def c1PaCard : PaCard :=
  { name := "bluez_card.AA_BB_CC_DD_EE_FF"
    properties := []
    profiles := [{ name := "a2dp", description := "A2DP", available := true }]
    active_profile := none }

/-- A card whose profile list starts with "off" followed by an available
profile, so original and filtered positions differ. -/
def c2Card : PaCard :=
  { name := "bluez_card.AA_BB_CC_DD_EE_FF"
    properties := []
    profiles := [{ name := "off", description := "Off", available := true },
                 { name := "a2dp", description := "A2DP", available := true }]
    active_profile := some "a2dp" }

/-- The single retained profile of `c2Card`: original position 1. -/
def c2Prof : AudioProfile := { index := 1, name := "a2dp", description := "A2DP",
                               available := true }

/-- The device the PulseAudio prober returns for `c2Card`. -/
def c2Dev : AudioDevice :=
  { id := .Pulseaudio "bluez_card.AA_BB_CC_DD_EE_FF"
    profiles := [c2Prof]
    active_profile_index := some 0 }

/-- A card with no usable properties whose name embeds the address. -/
def c4Card : PaCard :=
  { name := "bluez_card.AA_BB_CC_DD_EE_FF"
    properties := []
    profiles := []
    active_profile := none }

/-- A pw-dump entry with one available profile and an active Profile
parameter. -/
def c7Entry : PwDumpEntry :=
  { id := 3
    info := some
      { props := some { bluez5_address := some "AA:BB:CC:DD:EE:FF" }
        params := some
          { enum_profile := [{ index := 0, name := some "a2dp",
                               description := some "A2DP", available := some "yes" }]
            profile := [{ index := 0 }] } } }

/-- The device the PipeWire prober returns for `c7Entry`. -/
def c7Dev : AudioDevice :=
  { id := .Pipewire 3
    profiles := [{ index := 0, name := "a2dp", description := "A2DP", available := true }]
    active_profile_index := some 0 }

/-- A card whose reported active profile is "off", which the filtered
profile list never contains. -/
def c9Card : PaCard :=
  { name := "bluez_card.AA_BB_CC_DD_EE_FF"
    properties := []
    profiles := [{ name := "off", description := "Off", available := true },
                 { name := "a2dp", description := "A2DP", available := true }]
    active_profile := some "off" }

/-- An EnumProfile entry with absent name and description, available. -/
def c10Prof : PwEnumProfile :=
  { index := 5, name := none, description := none, available := some "yes" }

/-- Params whose only EnumProfile entry is `c10Prof`. -/
def c10Params : PwParams := { enum_profile := [c10Prof], profile := [] }

/-! ### Shared characterization lemmas -/

/-- Hex digits are never a colon. -/
lemma hexChar_ne_colon : ∀ n, n < 16 → hexChar n ≠ ':' := by decide

/-- Colon replacement leaves the two hex characters of an octet intact. -/
lemma map_octetChars (b : Fin 256) :
    (octetChars b).map (fun c => if c = ':' then '_' else c) = octetChars b := by
  have h1 : b.val / 16 < 16 := by omega
  have h2 : b.val % 16 < 16 := by omega
  simp [octetChars, hexChar_ne_colon _ h1, hexChar_ne_colon _ h2]

/-- Weakening: an existential over a list is one over any extension. -/
lemma exists_mem_cons {α : Type} {p : α → Prop} {x : α} {l : List α}
    (h : ∃ e ∈ l, p e) : ∃ e ∈ x :: l, p e := by
  obtain ⟨e, he, hp⟩ := h
  exact ⟨e, List.mem_cons_of_mem _ he, hp⟩

/-- Any successful PipeWire scan is produced by some entry of the dump,
with all the structural facts the loop checked on the way. -/
lemma pwFindDevice_some {entries : List PwDumpEntry} {q : String} {d : AudioDevice}
    (h : pwFindDevice entries q = some d) :
    ∃ e ∈ entries, ∃ info props bluez_addr params,
      e.info = some info ∧ info.props = some props ∧
      props.bluez5_address = some bluez_addr ∧ replaceColon bluez_addr = q ∧
      info.params = some params ∧ params.enum_profile ≠ [] ∧
      d = { id := .Pipewire e.id
            profiles := pwProfilesOf params
            active_profile_index := params.profile.head?.map PwActiveProfile.index } := by
  induction entries with
  | nil => simp [pwFindDevice] at h
  | cons e rest ih =>
    rw [pwFindDevice] at h
    split at h
    · exact exists_mem_cons (ih h)
    · rename_i info hinfo
      split at h
      · exact exists_mem_cons (ih h)
      · rename_i props hprops
        split at h
        · exact exists_mem_cons (ih h)
        · rename_i bluez_addr hba
          split at h
          · exact exists_mem_cons (ih h)
          · rename_i hq
            split at h
            · exact exists_mem_cons (ih h)
            · rename_i params hparams
              split at h
              · exact exists_mem_cons (ih h)
              · rename_i hne
                refine ⟨e, List.mem_cons_self _ _, info, props, bluez_addr, params,
                  hinfo, hprops, hba, not_not.mp hq, hparams, ?_,
                  (Option.some_inj.mp h).symm⟩
                simpa [List.isEmpty_iff] using hne

/-- Any successful PulseAudio scan is produced by some matching card with
a non-empty filtered profile list. -/
lemma paFindDevice_some {cards : List PaCard} {q : String} {d : AudioDevice}
    (h : paFindDevice cards q = some d) :
    ∃ card ∈ cards, paCardMatches card q = true ∧ paProfilesOf card ≠ [] ∧
      d = { id := .Pulseaudio card.name
            profiles := paProfilesOf card
            active_profile_index := paActiveIndex card } := by
  induction cards with
  | nil => simp [paFindDevice] at h
  | cons card rest ih =>
    by_cases hm : paCardMatches card q = true
    · by_cases he : (paProfilesOf card).isEmpty
      · rw [paFindDevice, if_pos hm, if_pos he] at h; exact exists_mem_cons (ih h)
      · rw [paFindDevice, if_pos hm, if_neg he] at h
        refine ⟨card, List.mem_cons_self _ _, hm, ?_, (Option.some_inj.mp h).symm⟩
        simpa [List.isEmpty_iff] using he
    · rw [paFindDevice, if_neg hm] at h; exact exists_mem_cons (ih h)

/-- Every element of the PulseAudio profile accumulation comes from a
position of the original card profile list, and its index records that
position offset by the starting counter. -/
lemma paProfilesAux_mem {ps : List PaProfile} {start : Nat} {q : AudioProfile}
    (h : q ∈ paProfilesAux start ps) :
    ∃ j, ∃ hj : j < ps.length, q.index = start + j ∧
      q.name = (ps.get ⟨j, hj⟩).name ∧
      q.description = (ps.get ⟨j, hj⟩).description ∧
      q.available = true ∧ (ps.get ⟨j, hj⟩).available = true ∧
      (ps.get ⟨j, hj⟩).name ≠ "off" := by
  induction ps generalizing start with
  | nil => simp [paProfilesAux] at h
  | cons p rest ih =>
    by_cases hoff : p.name = "off"
    · rw [paProfilesAux, if_pos hoff] at h
      obtain ⟨j, hj, hidx, rest0⟩ := ih h
      exact ⟨j + 1, Nat.succ_lt_succ hj, by omega, rest0⟩
    · by_cases hav : p.available = true
      · rw [paProfilesAux, if_neg hoff, if_pos hav] at h
        rcases List.mem_cons.mp h with hq | hq
        · subst hq
          exact ⟨0, Nat.succ_pos _, by simp, rfl, rfl, hav, hav, hoff⟩
        · obtain ⟨j, hj, hidx, rest0⟩ := ih hq
          exact ⟨j + 1, Nat.succ_lt_succ hj, by omega, rest0⟩
      · rw [paProfilesAux, if_neg hoff, if_neg hav] at h
        obtain ⟨j, hj, hidx, rest0⟩ := ih h
        exact ⟨j + 1, Nat.succ_lt_succ hj, by omega, rest0⟩

/-- The active-profile loop is exactly a first-index search by name. -/
lemma paResolveActive_eq_findIdx (name : String) :
    ∀ (ps : List AudioProfile) (i : Nat),
      paResolveActive name i ps = ps.findIdx? (fun p => p.name == name) i := by
  intro ps
  induction ps with
  | nil => intro i; rfl
  | cons p rest ih =>
    intro i
    rw [paResolveActive, List.findIdx?_cons]
    by_cases hp : p.name = name
    · rw [if_pos hp, if_pos (by simpa using hp)]
    · rw [if_neg hp, if_neg (by simpa using hp), ih]

/-! ### Claim theorems -/

/-- C8: for every well-formed 6-octet Bluetooth address, applying the
underscore normalization to its colon-separated form and to its
equivalent underscore-separated form yields equal strings (both equal the
underscore form itself). -/
theorem c8_normalization_agrees (a : BtAddress) :
    address_to_bluez_format a = replaceColon (addrUnderscoreString a) ∧
    replaceColon (addrUnderscoreString a) = addrUnderscoreString a := by
  have f1 : ((fun c => if c = ':' then '_' else c) ':') = '_' := rfl
  have f2 : ((fun c => if c = ':' then '_' else c) '_') = '_' := rfl
  have hlist : (addrColonChars a).map (fun c => if c = ':' then '_' else c) =
      addrUnderscoreChars a := by
    simp [addrColonChars, addrUnderscoreChars, List.map_append, map_octetChars, f1]
  have hlist2 : (addrUnderscoreChars a).map (fun c => if c = ':' then '_' else c) =
      addrUnderscoreChars a := by
    simp [addrUnderscoreChars, List.map_append, map_octetChars, f2]
  exact ⟨(congrArg String.mk hlist).trans (congrArg String.mk hlist2).symm,
    congrArg String.mk hlist2⟩

/-- C1 counterexample: the PipeWire prober returns a Device with an empty
profiles list for a matching entry whose only EnumProfile entry is named
"off" — the claim says such an entry never yields a Device. -/
theorem c1_counterexample :
    get_pipewire_device (.parsed [c1Entry]) addrX =
      some { id := .Pipewire 7, profiles := [], active_profile_index := none } := by
  decide

/-- C1 amended: the PulseAudio prober returns a Device only when the
filtered profile list is non-empty; the PipeWire prober returns a Device
exactly from an entry whose raw EnumProfile list is non-empty — even when
every entry is "off" or unavailable, so the returned profiles list may be
empty. -/
theorem c1_amended_nonempty_condition :
    (∀ (r : CmdResult (List PaCard)) (addr : BtAddress) (d : AudioDevice),
      get_pulseaudio_device r addr = some d → d.profiles ≠ []) ∧
    (∀ (r : CmdResult (List PwDumpEntry)) (addr : BtAddress) (d : AudioDevice),
      get_pipewire_device r addr = some d →
      ∃ entries, r = .parsed entries ∧ ∃ e ∈ entries, ∃ info params,
        e.info = some info ∧ info.params = some params ∧
        params.enum_profile ≠ [] ∧ d.profiles = pwProfilesOf params) := by
  constructor
  · intro r addr d h
    cases r with
    | launchFail => simp [get_pulseaudio_device] at h
    | exitNonzero => simp [get_pulseaudio_device] at h
    | badParse => simp [get_pulseaudio_device] at h
    | parsed cards =>
      obtain ⟨card, _, _, hne, hd⟩ := paFindDevice_some h
      subst hd
      simpa using hne
  · intro r addr d h
    cases r with
    | launchFail => simp [get_pipewire_device] at h
    | exitNonzero => simp [get_pipewire_device] at h
    | badParse => simp [get_pipewire_device] at h
    | parsed entries =>
      obtain ⟨e, he, info, props, ba, params, hinfo, hprops, hba, hq, hparams, hne, hd⟩ :=
        pwFindDevice_some h
      subst hd
      exact ⟨entries, rfl, e, he, info, params, hinfo, hparams, hne, rfl⟩

/-- C1 witness: a PulseAudio discovery that succeeds concretely has a
non-empty profile list. -/
theorem c1_amended_witness :
    ({ id := .Pulseaudio "bluez_card.AA_BB_CC_DD_EE_FF"
       profiles := [{ index := 0, name := "a2dp", description := "A2DP", available := true }]
       active_profile_index := none } : AudioDevice).profiles ≠ [] :=
  c1_amended_nonempty_condition.1 (.parsed [c1PaCard]) addrX _ (by decide)

/-- C2 counterexample: for `c2Card` the retained profile's index is 1,
its position in the original unfiltered list, not the position 0 it holds
among the filtered profiles. -/
theorem c2_counterexample :
    get_pulseaudio_device (.parsed [c2Card]) addrX = some c2Dev ∧
    (paProfilesOf c2Card).map AudioProfile.index ≠
      List.range (paProfilesOf c2Card).length := by
  decide

/-- C2 amended: each retained profile's index field is its position in
the card's original unfiltered profile list (whose entry at that position
is the very profile retained: available and not "off"). -/
theorem c2_amended_index_original_position :
    ∀ (card : PaCard) (q : AudioProfile), q ∈ paProfilesOf card →
      ∃ hj : q.index < card.profiles.length,
        (card.profiles.get ⟨q.index, hj⟩).name = q.name ∧
        (card.profiles.get ⟨q.index, hj⟩).description = q.description ∧
        (card.profiles.get ⟨q.index, hj⟩).available = true ∧
        (card.profiles.get ⟨q.index, hj⟩).name ≠ "off" ∧
        q.available = true := by
  intro card q hq
  obtain ⟨j, hj, hidx, hname, hdesc, hqav, hsav, hoff⟩ := paProfilesAux_mem hq
  have hij : q.index = j := by omega
  simp only [hij]
  exact ⟨hj, hname.symm, hdesc.symm, hsav, hoff, hqav⟩

/-- C2 witness: the amended statement instantiated on `c2Card`. -/
theorem c2_amended_witness :
    ∃ hj : c2Prof.index < c2Card.profiles.length,
      (c2Card.profiles.get ⟨c2Prof.index, hj⟩).name = c2Prof.name ∧
      (c2Card.profiles.get ⟨c2Prof.index, hj⟩).description = c2Prof.description ∧
      (c2Card.profiles.get ⟨c2Prof.index, hj⟩).available = true ∧
      (c2Card.profiles.get ⟨c2Prof.index, hj⟩).name ≠ "off" ∧
      c2Prof.available = true :=
  c2_amended_index_original_position c2Card c2Prof (by decide)

/-- C3: for every successful PulseAudio discovery, the device's active
profile index, when the producing card reports an active-profile name, is
exactly the first position of that name in the filtered profile list
(which is the device's own profiles list). -/
theorem c3_active_index_filtered_position :
    ∀ (cards : List PaCard) (addr : BtAddress) (d : AudioDevice),
      get_pulseaudio_device (.parsed cards) addr = some d →
      ∃ card ∈ cards, d.profiles = paProfilesOf card ∧
        ∀ name, card.active_profile = some name →
          ∀ i, (d.active_profile_index = some i ↔
            ∃ h : i < d.profiles.length, (d.profiles.get ⟨i, h⟩).name = name ∧
              ∀ j (hj : j < i), (d.profiles.get ⟨j, Nat.lt_trans hj h⟩).name ≠ name) := by
  intro cards addr d h
  obtain ⟨card, hmem, hmatch, hne, hd⟩ := paFindDevice_some h
  subst hd
  refine ⟨card, hmem, rfl, ?_⟩
  intro name hname i
  simp only [paActiveIndex, hname]
  rw [paResolveActive_eq_findIdx, List.findIdx?_eq_some_iff_getElem]
  simp only [beq_iff_eq, List.get_eq_getElem]

/-- C3 witness: the characterization applied to the concrete card
`c2Card`, whose active profile "a2dp" sits at filtered position 0. -/
theorem c3_witness :
    ∃ card ∈ [c2Card], c2Dev.profiles = paProfilesOf card ∧
      ∀ name, card.active_profile = some name →
        ∀ i, (c2Dev.active_profile_index = some i ↔
          ∃ h : i < c2Dev.profiles.length, (c2Dev.profiles.get ⟨i, h⟩).name = name ∧
            ∀ j (hj : j < i), (c2Dev.profiles.get ⟨j, Nat.lt_trans hj h⟩).name ≠ name) :=
  c3_active_index_filtered_position [c2Card] addrX c2Dev (by decide)

/-- C4: a PulseAudio card matches the query exactly when its normalized
property-derived address (preferred key first, then the fallback key)
equals the normalized query, or its name contains the normalized query as
a substring; concretely, `c4Card` with no properties matches
AA:BB:CC:DD:EE:FF through its name alone. -/
theorem c4_card_match_condition :
    (∀ (card : PaCard) (q : String),
      paCardMatches card q = true ↔
        ((∃ v, paPropAddr card = some v ∧ replaceColon v = q) ∨
          containsSub card.name.data q.data = true)) ∧
    (∀ (cards : List PaCard) (addr : BtAddress),
      get_pulseaudio_device (.parsed cards) addr =
        paFindDevice cards (address_to_bluez_format addr)) ∧
    c4Card.properties = [] ∧
    addrToString addrX = "AA:BB:CC:DD:EE:FF" ∧
    c4Card.name = "bluez_card.AA_BB_CC_DD_EE_FF" ∧
    paCardMatches c4Card (address_to_bluez_format addrX) = true := by
  refine ⟨?_, fun cards addr => rfl, by decide, by decide, rfl, by decide⟩
  intro card q
  simp only [paCardMatches, Bool.or_eq_true]
  constructor
  · rintro (hname | haddr)
    · exact Or.inr hname
    · left
      cases hpa : paPropAddr card with
      | none => rw [hpa] at haddr; simp at haddr
      | some v =>
        rw [hpa] at haddr
        exact ⟨v, rfl, by simpa using haddr⟩
  · rintro (⟨v, hv, hrep⟩ | hname)
    · right
      rw [hv]
      simp [hrep]
    · exact Or.inl hname

/-- C4 witness: the concrete substring match of the theorem. -/
theorem c4_witness : paCardMatches c4Card (address_to_bluez_format addrX) = true :=
  c4_card_match_condition.2.2.2.2.2

/-- C5: on either backend, switching yields Ok with the fixed
confirmation exactly when the exit code is zero; a non-zero exit yields
an Err embedding the captured stderr, and a launch failure yields an Err
embedding the launch-failure reason. -/
theorem c5_switch_result :
    ∀ (device : AudioDeviceId) (profile_index : Nat) (profile_name : String)
      (code : Nat) (stderr : String) (reason : String),
      (switch_profile device profile_index profile_name (.exited code stderr) =
          .ok "Profile switched" ↔ code = 0) ∧
      (code ≠ 0 → ∃ pre, switch_profile device profile_index profile_name
          (.exited code stderr) = .error (pre ++ stderr)) ∧
      (∃ pre, switch_profile device profile_index profile_name
          (.launchFail reason) = .error (pre ++ reason)) := by
  intro device pi pn code stderr reason
  cases device with
  | Pipewire id =>
    refine ⟨?_, ?_, ⟨"Failed to run wpctl: ", rfl⟩⟩
    · by_cases hc : code = 0
      · simp [switch_profile, switch_pipewire_profile, hc]
      · simp [switch_profile, switch_pipewire_profile, hc]
    · intro hc
      exact ⟨"wpctl failed: ", by simp [switch_profile, switch_pipewire_profile, hc]⟩
  | Pulseaudio card =>
    refine ⟨?_, ?_, ⟨"Failed to run pactl: ", rfl⟩⟩
    · by_cases hc : code = 0
      · simp [switch_profile, switch_pulseaudio_profile, hc]
      · simp [switch_profile, switch_pulseaudio_profile, hc]
    · intro hc
      exact ⟨"pactl failed: ", by simp [switch_profile, switch_pulseaudio_profile, hc]⟩

/-- C5 witness: a non-zero exit on the PipeWire path produces an error
embedding the captured stderr. -/
theorem c5_witness :
    ∃ pre, switch_profile (.Pipewire 3) 1 "a2dp" (.exited 1 "boom") =
      .error (pre ++ "boom") :=
  (c5_switch_result (.Pipewire 3) 1 "a2dp" 1 "boom" "nope").2.1 (by decide)

/-- C6: whenever the PipeWire probe yields no device — launch failure,
non-zero exit, malformed JSON, or no qualifying entry — discovery is the
PulseAudio result, and discovery is absent exactly when both backends
yield nothing. -/
theorem c6_fallback_to_pulseaudio :
    ∀ (pa : CmdResult (List PaCard)) (addr : BtAddress),
      (get_pipewire_device .launchFail addr = none ∧
        get_audio_device .launchFail pa addr = get_pulseaudio_device pa addr) ∧
      (get_pipewire_device .exitNonzero addr = none ∧
        get_audio_device .exitNonzero pa addr = get_pulseaudio_device pa addr) ∧
      (get_pipewire_device .badParse addr = none ∧
        get_audio_device .badParse pa addr = get_pulseaudio_device pa addr) ∧
      (∀ pw : CmdResult (List PwDumpEntry), get_pipewire_device pw addr = none →
        get_audio_device pw pa addr = get_pulseaudio_device pa addr) ∧
      (∀ pw : CmdResult (List PwDumpEntry),
        get_audio_device pw pa addr = none ↔
          (get_pipewire_device pw addr = none ∧ get_pulseaudio_device pa addr = none)) := by
  intro pa addr
  refine ⟨⟨rfl, rfl⟩, ⟨rfl, rfl⟩, ⟨rfl, rfl⟩, ?_, ?_⟩
  · intro pw hpw
    simp only [get_audio_device, hpw]
  · intro pw
    cases hres : get_pipewire_device pw addr with
    | none => simp [get_audio_device, hres]
    | some d => simp [get_audio_device, hres]

/-- C6 witness: with PipeWire unable to launch, discovery equals the
PulseAudio result. -/
theorem c6_witness :
    get_audio_device .launchFail (.parsed []) addrX =
      get_pulseaudio_device (.parsed []) addrX :=
  (c6_fallback_to_pulseaudio (.parsed []) addrX).2.2.2.1 .launchFail rfl

/-- C7: every device the PipeWire prober returns carries as active index
the index of the first entry of the matching entry's Profile parameter
list, and no active index when that list is empty. -/
theorem c7_pipewire_active_index :
    ∀ (entries : List PwDumpEntry) (addr : BtAddress) (d : AudioDevice),
      get_pipewire_device (.parsed entries) addr = some d →
      ∃ e ∈ entries, ∃ info params, e.info = some info ∧ info.params = some params ∧
        d.active_profile_index = params.profile.head?.map PwActiveProfile.index ∧
        (params.profile = [] → d.active_profile_index = none) ∧
        (∀ fst rest, params.profile = fst :: rest →
          d.active_profile_index = some fst.index) := by
  intro entries addr d h
  obtain ⟨e, he, info, props, ba, params, hinfo, hprops, hba, hq, hparams, hne, hd⟩ :=
    pwFindDevice_some h
  subst hd
  refine ⟨e, he, info, params, hinfo, hparams, rfl, ?_, ?_⟩
  · intro h0
    simp [h0]
  · intro fst rest h0
    simp [h0]

/-- C7 witness: the characterization applied to `c7Entry`, whose Profile
parameter's first entry has index 0. -/
theorem c7_witness :
    ∃ e ∈ [c7Entry], ∃ info params, e.info = some info ∧ info.params = some params ∧
      c7Dev.active_profile_index = params.profile.head?.map PwActiveProfile.index ∧
      (params.profile = [] → c7Dev.active_profile_index = none) ∧
      (∀ fst rest, params.profile = fst :: rest →
        c7Dev.active_profile_index = some fst.index) :=
  c7_pipewire_active_index [c7Entry] addrX c7Dev (by decide)

/-- C9: a matching PulseAudio card whose reported active-profile name
does not occur among the filtered profiles still yields a Device, with an
absent active profile index. -/
theorem c9_absent_active_profile :
    ∀ (card : PaCard) (rest : List PaCard) (addr : BtAddress) (name : String),
      paCardMatches card (address_to_bluez_format addr) = true →
      card.active_profile = some name →
      (∀ p ∈ paProfilesOf card, p.name ≠ name) →
      paProfilesOf card ≠ [] →
      get_pulseaudio_device (.parsed (card :: rest)) addr =
        some { id := .Pulseaudio card.name
               profiles := paProfilesOf card
               active_profile_index := none } := by
  intro card rest addr name hm hname hnot hne
  have hactive : paActiveIndex card = none := by
    simp only [paActiveIndex, hname]
    rw [paResolveActive_eq_findIdx, List.findIdx?_eq_none_iff]
    intro x hx
    simpa using hnot x hx
  show paFindDevice (card :: rest) (address_to_bluez_format addr) = _
  rw [paFindDevice, if_pos hm, if_neg (by simpa [List.isEmpty_iff] using hne), hactive]

/-- C9 witness: `c9Card` reports active profile "off", which the filter
removes; the device is returned with no active index. -/
theorem c9_witness :
    get_pulseaudio_device (.parsed [c9Card]) addrX =
      some { id := .Pulseaudio c9Card.name
             profiles := paProfilesOf c9Card
             active_profile_index := none } :=
  c9_absent_active_profile c9Card [] addrX "off" (by decide) (by decide)
    (by decide) (by decide)

/-- C10: absent name/description fields of an EnumProfile entry become
empty strings in the constructed profile, and an entry with an absent
name whose availability string is "yes" is retained in the profile
list. -/
theorem c10_absent_fields_defaults :
    (∀ p : PwEnumProfile, p.name = none → (pwMkProfile p).name = "") ∧
    (∀ p : PwEnumProfile, p.description = none → (pwMkProfile p).description = "") ∧
    (∀ (params : PwParams) (p : PwEnumProfile), p ∈ params.enum_profile →
      p.name = none → p.available = some "yes" → pwMkProfile p ∈ pwProfilesOf params) := by
  refine ⟨?_, ?_, ?_⟩
  · intro p h
    simp [pwMkProfile, h]
  · intro p h
    simp [pwMkProfile, h]
  · intro params p hmem hname hav
    rw [pwProfilesOf]
    apply List.mem_filter.mpr
    constructor
    · exact List.mem_map_of_mem _ (List.mem_filter.mpr ⟨hmem, by simp [hname]⟩)
    · simp [pwMkProfile, hav]

/-- C10 witness: the nameless available entry `c10Prof` is retained. -/
theorem c10_witness : pwMkProfile c10Prof ∈ pwProfilesOf c10Params :=
  c10_absent_fields_defaults.2.2 c10Params c10Prof (by decide) rfl rfl
